import Mathlib

/-!
Shallow embedding of the guardrailed RAG pipeline implemented in
`scripts/rag_with_guardrails.py`: input validation, retrieval filtering with a
similarity threshold and chunk-quality checks, output validation with a lexical
fidelity score, and the orchestrating `query_with_guardrails` pipeline.

Python strings are modelled as Lean `String`; `len` is the number of
characters; float scores and thresholds are modelled as `ℚ`.  External effects
(the vector store search and the LLM call) are passed in as explicit arguments:
the retrieval results as a list of `(Document, score)` pairs and the generator
as a function from the formatted context to the raw answer.
-/

/-- Python whitespace for `str.strip()` / `str.split()` with no arguments:
space, tab, newline, carriage return, vertical tab, form feed. -/
def isPyWs (c : Char) : Bool :=
  c = ' ' || c = '\t' || c = '\n' || c = '\r' || c = Char.ofNat 11 || c = Char.ofNat 12

/-- Drop characters satisfying `p` from both ends of a character list
(the semantics of Python `str.strip`). -/
def pyStripList (p : Char → Bool) (l : List Char) : List Char :=
  ((l.dropWhile p).reverse.dropWhile p).reverse

/-- Python `s.strip()` (no arguments): strip whitespace from both ends. -/
def pyStrip (s : String) : String :=
  String.mk (pyStripList isPyWs s.toList)

/-- Python `s.strip(chars)`: strip any of the given characters from both ends. -/
def pyStripChars (chars : String) (s : String) : String :=
  String.mk (pyStripList (fun c => chars.toList.contains c) s.toList)

/-- Python `s[:n]`: the first `n` characters of `s`. -/
def pyTake (n : ℕ) (s : String) : String :=
  String.mk (s.toList.take n)

/-- Python `s.lower()` (restricted to ASCII case mapping). -/
def pyLower (s : String) : String :=
  String.mk (s.toList.map Char.toLower)

/-- Substring test on character lists: `needle` occurs contiguously in `hay`. -/
def listContainsSub (needle hay : List Char) : Bool :=
  hay.tails.any (fun t => needle.isPrefixOf t)

/-- Python `needle in hay` for strings. -/
def pyContains (needle hay : String) : Bool :=
  listContainsSub needle.toList hay.toList

/-- Splits a character list on whitespace, dropping empty pieces; `acc` holds
the characters of the current word in reverse. -/
def pySplitAux : List Char → List Char → List String
  | [], acc => if acc = [] then [] else [String.mk acc.reverse]
  | c :: cs, acc =>
      if isPyWs c then
        if acc = [] then pySplitAux cs []
        else String.mk acc.reverse :: pySplitAux cs []
      else pySplitAux cs (c :: acc)

/-- Python `s.split()`: split on runs of whitespace, dropping empty pieces. -/
def pySplit (s : String) : List String :=
  pySplitAux s.toList []

/-- The list of distinct lowercase words of `s` (Python `set(s.lower().split())`,
represented as a duplicate-free list). -/
def wordSet (s : String) : List String :=
  (pySplit (pyLower s)).dedup

-- ============================================================================
-- GuardrailConfig (class `GuardrailConfig`)
-- ============================================================================

/-- The configuration constants of class `GuardrailConfig`.  Field defaults are
the class attribute values from the source. -/
structure GuardrailConfig where
  SIMILARITY_THRESHOLD_STRICT : ℚ := 25/100
  SIMILARITY_THRESHOLD_BALANCED : ℚ := 35/100
  SIMILARITY_THRESHOLD_PERMISSIVE : ℚ := 50/100
  MIN_CONTEXT_LENGTH : ℕ := 50
  MAX_CHUNKS_RETRIEVED : ℕ := 12
  MIN_CHUNKS_REQUIRED : ℕ := 1
  NO_CONTEXT_MESSAGE : String := "❌ Não encontrei informações relevantes no contexto disponível."

/-- The default configuration (`GuardrailConfig()` with untouched class attributes). -/
def defaultConfig : GuardrailConfig := {}

-- ============================================================================
-- InputValidator (class `InputValidator`)
-- ============================================================================

/-- The injection patterns scanned by `InputValidator.validate_query`, in source
order. -/
def injectionPatterns : List String :=
  ["ignore previous instructions", "forget everything", "act as",
   "pretend to be", "system:", "assistant:"]

/-- `InputValidator.validate_query`: returns
`(is_valid, sanitized_query, rejection_reason)`. -/
def InputValidator.validate_query (query : String) : Bool × String × String :=
  if query = "" || pyStrip query = "" then
    (false, "", "Query vazia")
  else
    let q := pyStrip query
    if q.length < 3 then
      (false, q, "Query muito curta (mínimo 3 caracteres)")
    else if q.length > 500 then
      (false, pyTake 500 q, "Query truncada (máximo 500 caracteres)")
    else
      match injectionPatterns.find? (fun p => pyContains p (pyLower q)) with
      | some p => (false, q, "Padrão suspeito detectado: " ++ p)
      | none => (true, q, "")

example : InputValidator.validate_query "" = (false, "", "Query vazia") := by decide
example : InputValidator.validate_query "  ab " =
    (false, "ab", "Query muito curta (mínimo 3 caracteres)") := by decide
example : (InputValidator.validate_query "What is the latency?").1 = true := by decide
example : (InputValidator.validate_query "please act as a pirate").1 = false := by decide

-- ============================================================================
-- RetrievalGuardrails (class `RetrievalGuardrails`)
-- ============================================================================

/-- A retrieved document: the fields of `langchain` `Document` the pipeline
reads (`page_content` and the `source` metadata entry). -/
structure Document where
  page_content : String
  source : String
deriving DecidableEq

/-- `RetrievalGuardrails._validate_chunk_quality`: the chunk's stripped content
must not be shorter than `MIN_CONTEXT_LENGTH`, and stripping the punctuation
and whitespace characters `.,!?;:\n\t ` from its ends must leave at least 10
characters. -/
def RetrievalGuardrails.validate_chunk_quality (cfg : GuardrailConfig)
    (doc : Document) : Bool :=
  let content := pyStrip doc.page_content
  if content.length < cfg.MIN_CONTEXT_LENGTH then false
  else if (pyStripChars ".,!?;:\n\t " content).length < 10 then false
  else true

/-- The acceptance test applied to each `(doc, score)` pair in the filtering
loop of `retrieve_with_threshold`: distance within threshold and chunk quality. -/
def RetrievalGuardrails.accepts (cfg : GuardrailConfig) (threshold : ℚ)
    (p : Document × ℚ) : Bool :=
  p.2 ≤ threshold && RetrievalGuardrails.validate_chunk_quality cfg p.1

/-- The `filtered_docs` list built by the loop in `retrieve_with_threshold`:
the documents of the accepted pairs, in retrieval order. -/
def RetrievalGuardrails.filteredDocs (cfg : GuardrailConfig)
    (results : List (Document × ℚ)) (threshold : ℚ) : List Document :=
  (results.filter (RetrievalGuardrails.accepts cfg threshold)).map Prod.fst

/-- The filtering telemetry of `retrieve_with_threshold` (the entries of the
`metadata` dict that the guardrail decisions use or export as numbers). -/
structure RetrievalMeta where
  total_retrieved : ℕ
  threshold_used : ℚ
  filtered_count : ℕ
  rejection_rate : ℚ

/-- The Python falsy coercion on line 223,
`threshold = threshold or GuardrailConfig.SIMILARITY_THRESHOLD_BALANCED`:
both `None` and `0.0` are falsy, so they are replaced by the balanced class
attribute; any other value passes through. -/
def RetrievalGuardrails.effectiveThreshold (threshold : Option ℚ) : ℚ :=
  match threshold with
  | none => defaultConfig.SIMILARITY_THRESHOLD_BALANCED
  | some t =>
      if t = 0 then defaultConfig.SIMILARITY_THRESHOLD_BALANCED else t

/-- `RetrievalGuardrails.retrieve_with_threshold`, with the vector-store search
results passed in as `results`: returns `(filtered_docs, metadata)`.  The
`threshold` argument defaults to `None` and undergoes the falsy coercion of
`effectiveThreshold`; `rejection_rate` is `1 - filtered/retrieved` guarded by
`if results else 0`. -/
def RetrievalGuardrails.retrieve_with_threshold (cfg : GuardrailConfig)
    (results : List (Document × ℚ)) (threshold : Option ℚ) :
    List Document × RetrievalMeta :=
  let t := RetrievalGuardrails.effectiveThreshold threshold
  let filtered := RetrievalGuardrails.filteredDocs cfg results t
  (filtered,
   { total_retrieved := results.length
     threshold_used := t
     filtered_count := filtered.length
     rejection_rate :=
       if results ≠ [] then 1 - (filtered.length : ℚ) / (results.length : ℚ)
       else 0 })

-- ============================================================================
-- OutputValidator (class `OutputValidator`)
-- ============================================================================

/-- The substring whose presence marks the "not found" sentinel answer in
`OutputValidator.validate_response`. -/
def noContextMarker : String := "❌ Não encontrei informações"

/-- The entries of the validation `metadata` dict of
`OutputValidator.validate_response` that record decisions.  An `Option` field
is `none` when the corresponding key is absent from the dict;
`fidelity_warning` is only ever set to `True`, so absence is modelled as
`false`. -/
structure OutputMeta where
  original_length : ℕ
  context_length : ℕ
  query : String
  validation_result : Option String := none
  source_citation : Option Bool := none
  fidelity_score : Option ℚ := none
  fidelity_warning : Bool := false

/-- `OutputValidator.validate_response`: returns
`(is_valid, processed_response, metadata)`. -/
def OutputValidator.validate_response (response context query : String) :
    Bool × String × OutputMeta :=
  let meta : OutputMeta :=
    { original_length := response.length, context_length := context.length
      query := query }
  if response = "" || (pyStrip response).length < 10 then
    (false, "❌ Resposta muito curta ou vazia", meta)
  else if pyContains noContextMarker response then
    (true, response, { meta with validation_result := some "no_context_found" })
  else
    let has_source_citation :=
      pyContains "(Fonte:" response || pyContains "(fonte:" response ||
        pyContains "Fonte:" response
    let meta := { meta with
      source_citation := !(context ≠ "" && !has_source_citation) }
    let context_words := wordSet context
    let response_words := wordSet response
    let context_overlap :=
      (response_words.filter (fun w => context_words.contains w)).length
    let total_response_words := response_words.length
    if total_response_words > 0 then
      let fidelity_score : ℚ :=
        (context_overlap : ℚ) / (total_response_words : ℚ)
      (true, response,
       { meta with validation_result := some "valid"
                   fidelity_score := some fidelity_score
                   fidelity_warning := fidelity_score < 30/100 })
    else
      (true, response, { meta with validation_result := some "valid" })

example :
    (OutputValidator.validate_response "short" "ctx" "q").1 = false := by decide
example :
    (OutputValidator.validate_response
      "✅ Com base no contexto fornecido: alpha beta (Fonte: a.md)"
      "alpha beta" "q").1 = true := by decide
section
attribute [local semireducible] Rat.mul Rat.inv Rat.add Rat.sub
example :
    (OutputValidator.validate_response "alpha beta gamma delta" "alpha beta"
      "q").2.2.fidelity_score = some (1/2) := by decide
end

-- ============================================================================
-- RAGWithGuardrails (class `RAGWithGuardrails`)
-- ============================================================================

/-- The threshold selection of `RAGWithGuardrails.__init__`: a custom threshold
overrides the mode; otherwise `threshold_map.get(threshold_mode, BALANCED)`. -/
def RAGWithGuardrails.initThreshold (cfg : GuardrailConfig)
    (threshold_mode : String) (custom_threshold : Option ℚ) : ℚ :=
  match custom_threshold with
  | some t => t
  | none =>
      let threshold_map : String → Option ℚ := fun mode =>
        if mode = "strict" then some cfg.SIMILARITY_THRESHOLD_STRICT
        else if mode = "balanced" then some cfg.SIMILARITY_THRESHOLD_BALANCED
        else if mode = "permissive" then some cfg.SIMILARITY_THRESHOLD_PERMISSIVE
        else none
      (threshold_map threshold_mode).getD cfg.SIMILARITY_THRESHOLD_BALANCED

/-- `RAGWithGuardrails._format_context`: numbered chunks with their sources,
joined by blank lines. -/
def RAGWithGuardrails.format_context (docs : List Document) : String :=
  if docs = [] then ""
  else
    String.intercalate "\n\n" <|
      docs.enum.map fun p =>
        "[" ++ toString (p.1 + 1) ++ "] " ++ pyStrip p.2.page_content ++
          "\n(Fonte: " ++ p.2.source ++ ")"

/-- The observable outcome of one `query_with_guardrails` call: the `status`
and `response` entries of the returned dict, the input-validation triple, the
retrieval telemetry and output-validation metadata when those stages ran, and
whether the LLM generator was invoked. -/
structure PipelineResult where
  status : String
  response : String
  input_valid : Bool
  sanitized_query : String
  rejection_reason : String
  retrieval : Option RetrievalMeta := none
  output_validation : Option OutputMeta := none
  generator_called : Bool

/-- `RAGWithGuardrails.query_with_guardrails`, with the two external effects
passed in explicitly: `results` is what `similarity_search_with_score` returns
for the sanitized query, and `gen` maps the formatted context to the raw LLM
answer. -/
def RAGWithGuardrails.query_with_guardrails (cfg : GuardrailConfig)
    (similarity_threshold : ℚ) (query : String)
    (results : List (Document × ℚ)) (gen : String → String) : PipelineResult :=
  let (is_valid, sanitized_query, rejection_reason) :=
    InputValidator.validate_query query
  if !is_valid then
    { status := "rejected_input"
      response := "❌ Query inválida: " ++ rejection_reason
      input_valid := is_valid, sanitized_query, rejection_reason
      generator_called := false }
  else
    let (filtered_docs, retrieval_metadata) :=
      RetrievalGuardrails.retrieve_with_threshold cfg results
        (some similarity_threshold)
    if filtered_docs.length < cfg.MIN_CHUNKS_REQUIRED then
      { status := "no_relevant_context"
        response := cfg.NO_CONTEXT_MESSAGE
        input_valid := is_valid, sanitized_query, rejection_reason
        retrieval := some retrieval_metadata
        generator_called := false }
    else
      let context := RAGWithGuardrails.format_context filtered_docs
      let raw_response := gen context
      let (is_valid_output, validated_response, output_metadata) :=
        OutputValidator.validate_response raw_response context sanitized_query
      if !is_valid_output then
        { status := "invalid_output"
          response := validated_response
          input_valid := is_valid, sanitized_query, rejection_reason
          retrieval := some retrieval_metadata
          output_validation := some output_metadata
          generator_called := true }
      else
        { status := "success"
          response := validated_response
          input_valid := is_valid, sanitized_query, rejection_reason
          retrieval := some retrieval_metadata
          output_validation := some output_metadata
          generator_called := true }

example :
    (RAGWithGuardrails.query_with_guardrails defaultConfig (35/100) ""
      [] (fun _ => "")).status = "rejected_input" := by decide

-- ============================================================================
-- Helper lemmas
-- ============================================================================

/-- Unfolds the early-return structure of `_validate_chunk_quality` into the
conjunction of its two quality conditions. -/
theorem validate_chunk_quality_iff (cfg : GuardrailConfig) (d : Document) :
    RetrievalGuardrails.validate_chunk_quality cfg d = true ↔
      cfg.MIN_CONTEXT_LENGTH ≤ (pyStrip d.page_content).length ∧
      10 ≤ (pyStripChars ".,!?;:\n\t " (pyStrip d.page_content)).length := by
  simp only [RetrievalGuardrails.validate_chunk_quality]
  split_ifs with h1 h2 <;> simp <;> omega

/-- Membership in the filtered documents list of the retrieval guardrail. -/
theorem mem_filteredDocs (cfg : GuardrailConfig) (results : List (Document × ℚ))
    (threshold : ℚ) (d : Document) :
    d ∈ RetrievalGuardrails.filteredDocs cfg results threshold ↔
      ∃ s : ℚ, (d, s) ∈ results ∧ s ≤ threshold ∧
        RetrievalGuardrails.validate_chunk_quality cfg d = true := by
  unfold RetrievalGuardrails.filteredDocs
  simp only [List.mem_map, List.mem_filter]
  constructor
  · rintro ⟨⟨d', s⟩, ⟨hmem, hacc⟩, rfl⟩
    simp only [RetrievalGuardrails.accepts, Bool.and_eq_true, decide_eq_true_eq]
      at hacc
    exact ⟨s, hmem, hacc.1, hacc.2⟩
  · rintro ⟨s, hmem, hle, hq⟩
    refine ⟨(d, s), ⟨hmem, ?_⟩, rfl⟩
    simp only [RetrievalGuardrails.accepts, Bool.and_eq_true, decide_eq_true_eq]
    exact ⟨hle, hq⟩

/-- A concrete chunk used by witnesses: its content passes both quality
checks of `_validate_chunk_quality` under the default configuration. -/
def goodDoc : Document :=
  { page_content := "A latência média das APIs do sistema é de 150 milissegundos em operação normal."
    source := "docs/latencia.md" }

-- ============================================================================
-- C1: retrieval guardrail acceptance condition
-- ============================================================================

section
attribute [local semireducible] Rat.mul Rat.inv Rat.add Rat.sub

/-- C1 counterexample: at threshold `0.0` the falsy coercion of line 223 makes
the code filter at the balanced cutoff `35/100`, so `goodDoc` at distance
`3/10` is accepted even though `3/10 > 0` — the claimed "accept iff distance
at most the given threshold" fails. -/
theorem C1_counterexample_zero_threshold :
    goodDoc ∈ (RetrievalGuardrails.retrieve_with_threshold defaultConfig
        [(goodDoc, 3/10)] (some 0)).1 ∧
    ¬ ((3:ℚ)/10 ≤ 0) := by
  constructor
  · decide
  · norm_num

end

/-- C1 (amended): a chunk is accepted by `retrieve_with_threshold` if and only
if its distance is at most the EFFECTIVE threshold (inclusive boundary) and
its trimmed content has length at least `MIN_CONTEXT_LENGTH` and stripping
the punctuation and whitespace characters from the content leaves at least 10
characters — where the effective threshold is the given threshold unless that
is `None` or the falsy `0.0`, which the line-223 coercion replaces by the
balanced preset `35/100`. -/
theorem C1_chunk_accepted_iff (cfg : GuardrailConfig)
    (results : List (Document × ℚ)) (threshold : Option ℚ) (d : Document) :
    (d ∈ (RetrievalGuardrails.retrieve_with_threshold cfg results
        threshold).1 ↔
      ∃ s : ℚ, (d, s) ∈ results ∧
        s ≤ RetrievalGuardrails.effectiveThreshold threshold ∧
        cfg.MIN_CONTEXT_LENGTH ≤ (pyStrip d.page_content).length ∧
        10 ≤ (pyStripChars ".,!?;:\n\t " (pyStrip d.page_content)).length) ∧
    (∀ t : ℚ, t ≠ 0 →
      RetrievalGuardrails.effectiveThreshold (some t) = t) ∧
    RetrievalGuardrails.effectiveThreshold (some 0) =
      defaultConfig.SIMILARITY_THRESHOLD_BALANCED ∧
    RetrievalGuardrails.effectiveThreshold none =
      defaultConfig.SIMILARITY_THRESHOLD_BALANCED := by
  refine ⟨?_, ?_, ?_, rfl⟩
  · have h := mem_filteredDocs cfg results
      (RetrievalGuardrails.effectiveThreshold threshold) d
    simp only [validate_chunk_quality_iff] at h
    simpa [RetrievalGuardrails.retrieve_with_threshold] using h
  · intro t ht
    simp [RetrievalGuardrails.effectiveThreshold, ht]
  · simp [RetrievalGuardrails.effectiveThreshold]

section
attribute [local semireducible] Rat.mul Rat.inv Rat.add Rat.sub

/-- C1 witness: under the default configuration with the nonzero threshold
`35/100` (kept by the coercion), `goodDoc` at distance exactly `35/100` is
accepted, and at distance `36/100` (one step above) it is rejected. -/
theorem C1_chunk_accepted_iff_witness :
    goodDoc ∈ (RetrievalGuardrails.retrieve_with_threshold defaultConfig
        [(goodDoc, 35/100)] (some (35/100))).1 ∧
    goodDoc ∉ (RetrievalGuardrails.retrieve_with_threshold defaultConfig
        [(goodDoc, 36/100)] (some (35/100))).1 := by
  have heff : RetrievalGuardrails.effectiveThreshold (some (35/100)) =
      35/100 :=
    (C1_chunk_accepted_iff defaultConfig [] (some (35/100)) goodDoc).2.1
      (35/100) (by norm_num)
  constructor
  · exact (C1_chunk_accepted_iff defaultConfig [(goodDoc, 35/100)]
      (some (35/100)) goodDoc).1.mpr
      ⟨35/100, by simp, by rw [heff], by decide, by decide⟩
  · intro hmem
    obtain ⟨s, hs, hle, -⟩ :=
      (C1_chunk_accepted_iff defaultConfig [(goodDoc, 36/100)]
        (some (35/100)) goodDoc).1.mp hmem
    simp only [List.mem_singleton, Prod.mk.injEq] at hs
    rw [hs.2, heff] at hle
    norm_num at hle

end

-- ============================================================================
-- C5: monotone acceptance in the threshold
-- ============================================================================

/-- The accepted-chunk count is monotone in the cutoff actually used for
filtering. -/
theorem filteredDocs_length_mono (cfg : GuardrailConfig)
    (results : List (Document × ℚ)) {a b : ℚ} (h : a ≤ b) :
    (RetrievalGuardrails.filteredDocs cfg results a).length ≤
      (RetrievalGuardrails.filteredDocs cfg results b).length := by
  simp only [RetrievalGuardrails.filteredDocs, List.length_map]
  refine (List.monotone_filter_right results fun p hp => ?_).length_le
  simp only [RetrievalGuardrails.accepts, Bool.and_eq_true,
    decide_eq_true_eq] at hp ⊢
  exact ⟨hp.1.trans h, hp.2⟩

section
attribute [local semireducible] Rat.mul Rat.inv Rat.add Rat.sub

/-- C5 counterexample: the claimed monotonicity fails at `t1 = 0 < t2 = 2/10`:
the line-223 falsy coercion makes threshold `0.0` filter at the balanced
cutoff `35/100`, so a quality chunk at distance `3/10` is accepted under `t1`
but rejected under `t2`. -/
theorem C5_counterexample_zero_threshold :
    (0:ℚ) < 2/10 ∧
    ¬ ((RetrievalGuardrails.retrieve_with_threshold defaultConfig
          [(goodDoc, 3/10)] (some 0)).1.length ≤
        (RetrievalGuardrails.retrieve_with_threshold defaultConfig
          [(goodDoc, 3/10)] (some (2/10))).1.length) := by
  constructor
  · norm_num
  · decide

end

/-- C5 (amended): for a fixed list of retrieval results and thresholds
`t1 < t2` with `t1` nonzero (so that the line-223 falsy coercion keeps `t1`),
the number of chunks accepted under `t1` is at most the number accepted under
`t2`. -/
theorem C5_accepted_count_monotone (cfg : GuardrailConfig)
    (results : List (Document × ℚ)) {t1 t2 : ℚ} (h : t1 < t2)
    (h1 : t1 ≠ 0) :
    (RetrievalGuardrails.retrieve_with_threshold cfg results
        (some t1)).1.length ≤
      (RetrievalGuardrails.retrieve_with_threshold cfg results
        (some t2)).1.length := by
  have hB : defaultConfig.SIMILARITY_THRESHOLD_BALANCED = 35/100 := rfl
  have he1 : RetrievalGuardrails.effectiveThreshold (some t1) = t1 := by
    simp [RetrievalGuardrails.effectiveThreshold, h1]
  have hle : t1 ≤ RetrievalGuardrails.effectiveThreshold (some t2) := by
    by_cases h2 : t2 = 0
    · subst h2
      simp only [RetrievalGuardrails.effectiveThreshold, if_pos rfl, hB,
        if_true]
      linarith
    · simp [RetrievalGuardrails.effectiveThreshold, h2, h.le]
  simp only [RetrievalGuardrails.retrieve_with_threshold]
  rw [he1]
  exact filteredDocs_length_mono cfg results hle

section
attribute [local semireducible] Rat.mul Rat.inv Rat.add Rat.sub

/-- C5 witness: a concrete instance with nonzero thresholds `1/4 < 1/2` and
one retrieved chunk at distance `2/5`, accepted only under the larger
threshold. -/
theorem C5_accepted_count_monotone_witness :
    (1:ℚ)/4 < 1/2 ∧ (1:ℚ)/4 ≠ 0 ∧
    (RetrievalGuardrails.retrieve_with_threshold defaultConfig
        [(goodDoc, 2/5)] (some (1/4))).1.length ≤
      (RetrievalGuardrails.retrieve_with_threshold defaultConfig
        [(goodDoc, 2/5)] (some (1/2))).1.length :=
  ⟨by norm_num, by norm_num,
   C5_accepted_count_monotone defaultConfig [(goodDoc, 2/5)] (by norm_num)
     (by norm_num)⟩

end

-- ============================================================================
-- C10: the rejection rate is total and bounded
-- ============================================================================

/-- C10: the retrieval telemetry's `rejection_rate` always lies in `[0, 1]`;
it is `0` when the retrieved list is empty (the division is guarded) and equals
`1 - accepted/retrieved` when at least one chunk was retrieved. -/
theorem C10_rejection_rate_total (cfg : GuardrailConfig)
    (results : List (Document × ℚ)) (threshold : Option ℚ) :
    (0 ≤ (RetrievalGuardrails.retrieve_with_threshold cfg
        results threshold).2.rejection_rate ∧
      (RetrievalGuardrails.retrieve_with_threshold cfg
        results threshold).2.rejection_rate ≤ 1) ∧
    (results = [] →
      (RetrievalGuardrails.retrieve_with_threshold cfg
        results threshold).2.rejection_rate = 0) ∧
    (results ≠ [] →
      (RetrievalGuardrails.retrieve_with_threshold cfg
          results threshold).2.rejection_rate =
        1 - ((RetrievalGuardrails.retrieve_with_threshold cfg
              results threshold).2.filtered_count : ℚ) /
            ((RetrievalGuardrails.retrieve_with_threshold cfg
              results threshold).2.total_retrieved : ℚ)) := by
  by_cases hr : results = []
  · subst hr
    simp [RetrievalGuardrails.retrieve_with_threshold,
      RetrievalGuardrails.filteredDocs]
  · have hlen : 0 < (results.length : ℚ) := by
      have := List.length_pos.mpr hr
      exact_mod_cast this
    have hle : (RetrievalGuardrails.filteredDocs cfg results
        (RetrievalGuardrails.effectiveThreshold threshold)).length ≤
        results.length := by
      simpa [RetrievalGuardrails.filteredDocs] using
        List.length_filter_le (RetrievalGuardrails.accepts cfg
          (RetrievalGuardrails.effectiveThreshold threshold)) results
    have hq : ((RetrievalGuardrails.filteredDocs cfg results
        (RetrievalGuardrails.effectiveThreshold threshold)).length : ℚ) /
        (results.length : ℚ) ∈ Set.Icc (0:ℚ) 1 := by
      constructor
      · positivity
      · rw [div_le_one hlen]
        exact_mod_cast hle
    have hrate : (RetrievalGuardrails.retrieve_with_threshold cfg
        results threshold).2.rejection_rate =
        1 - ((RetrievalGuardrails.filteredDocs cfg results
          (RetrievalGuardrails.effectiveThreshold threshold)).length : ℚ) /
          (results.length : ℚ) := by
      simp [RetrievalGuardrails.retrieve_with_threshold, hr]
    have hfc : (RetrievalGuardrails.retrieve_with_threshold cfg
        results threshold).2.filtered_count =
        (RetrievalGuardrails.filteredDocs cfg results
          (RetrievalGuardrails.effectiveThreshold threshold)).length := rfl
    have htot : (RetrievalGuardrails.retrieve_with_threshold cfg
        results threshold).2.total_retrieved = results.length := rfl
    refine ⟨⟨?_, ?_⟩, fun h => absurd h hr, fun _ => ?_⟩
    · rw [hrate]; linarith [hq.2]
    · rw [hrate]; linarith [hq.1]
    · rw [hrate, hfc, htot]

section
attribute [local semireducible] Rat.mul Rat.inv Rat.add Rat.sub

/-- C10 witness: one retrieved chunk at distance `2/5` above the threshold
`35/100` gives rejection rate `1 = 1 - 0/1`, inside `[0, 1]`. -/
theorem C10_rejection_rate_total_witness :
    (0 ≤ (RetrievalGuardrails.retrieve_with_threshold defaultConfig
        [(goodDoc, 2/5)] (some (35/100))).2.rejection_rate ∧
      (RetrievalGuardrails.retrieve_with_threshold defaultConfig
        [(goodDoc, 2/5)] (some (35/100))).2.rejection_rate ≤ 1) ∧
    (RetrievalGuardrails.retrieve_with_threshold defaultConfig
        [(goodDoc, 2/5)] (some (35/100))).2.rejection_rate =
      1 - ((RetrievalGuardrails.retrieve_with_threshold defaultConfig
            [(goodDoc, 2/5)] (some (35/100))).2.filtered_count : ℚ) /
          ((RetrievalGuardrails.retrieve_with_threshold defaultConfig
            [(goodDoc, 2/5)] (some (35/100))).2.total_retrieved : ℚ) :=
  ⟨(C10_rejection_rate_total defaultConfig [(goodDoc, 2/5)]
      (some (35/100))).1,
   (C10_rejection_rate_total defaultConfig [(goodDoc, 2/5)]
      (some (35/100))).2.2 (by simp)⟩

end

-- ============================================================================
-- Pipeline unfolding lemmas
-- ============================================================================

/-- When input validation fails, the pipeline stops at stage 1: status
`rejected_input`, the rejection message, and no generation. -/
theorem qwg_of_invalid_input (cfg : GuardrailConfig) (t : ℚ) (query : String)
    (results : List (Document × ℚ)) (gen : String → String)
    (h : (InputValidator.validate_query query).1 = false) :
    RAGWithGuardrails.query_with_guardrails cfg t query results gen =
      { status := "rejected_input"
        response := "❌ Query inválida: " ++
          (InputValidator.validate_query query).2.2
        input_valid := false
        sanitized_query := (InputValidator.validate_query query).2.1
        rejection_reason := (InputValidator.validate_query query).2.2
        generator_called := false } := by
  rcases hvq : InputValidator.validate_query query with ⟨v, sq, rr⟩
  rw [hvq] at h
  subst h
  simp [RAGWithGuardrails.query_with_guardrails, hvq]

/-- When input validation succeeds but fewer than `MIN_CHUNKS_REQUIRED` chunks
survive the retrieval filter, the pipeline stops at stage 2: status
`no_relevant_context`, the fixed no-context message, and no generation. -/
theorem qwg_of_no_context (cfg : GuardrailConfig) (t : ℚ) (query : String)
    (results : List (Document × ℚ)) (gen : String → String)
    (h : (InputValidator.validate_query query).1 = true)
    (hfew : (RetrievalGuardrails.retrieve_with_threshold cfg results (some t)).1.length <
      cfg.MIN_CHUNKS_REQUIRED) :
    RAGWithGuardrails.query_with_guardrails cfg t query results gen =
      { status := "no_relevant_context"
        response := cfg.NO_CONTEXT_MESSAGE
        input_valid := true
        sanitized_query := (InputValidator.validate_query query).2.1
        rejection_reason := (InputValidator.validate_query query).2.2
        retrieval := some (RetrievalGuardrails.retrieve_with_threshold cfg
          results (some t)).2
        generator_called := false } := by
  rcases hvq : InputValidator.validate_query query with ⟨v, sq, rr⟩
  rw [hvq] at h
  subst h
  simp [RAGWithGuardrails.query_with_guardrails, hvq, hfew]

/-- When input validation succeeds and enough chunks survive the filter, the
generator is called on the formatted context and the outcome is decided by
output validation. -/
theorem qwg_of_generated (cfg : GuardrailConfig) (t : ℚ) (query : String)
    (results : List (Document × ℚ)) (gen : String → String)
    (h : (InputValidator.validate_query query).1 = true)
    (henough : cfg.MIN_CHUNKS_REQUIRED ≤
      (RetrievalGuardrails.retrieve_with_threshold cfg results (some t)).1.length) :
    RAGWithGuardrails.query_with_guardrails cfg t query results gen =
      (let context := RAGWithGuardrails.format_context
        (RetrievalGuardrails.retrieve_with_threshold cfg results (some t)).1
      let v := OutputValidator.validate_response (gen context) context
        (InputValidator.validate_query query).2.1
      { status := if v.1 then "success" else "invalid_output"
        response := v.2.1
        input_valid := true
        sanitized_query := (InputValidator.validate_query query).2.1
        rejection_reason := (InputValidator.validate_query query).2.2
        retrieval := some (RetrievalGuardrails.retrieve_with_threshold cfg
          results (some t)).2
        output_validation := some v.2.2
        generator_called := true }) := by
  rcases hvq : InputValidator.validate_query query with ⟨v, sq, rr⟩
  rw [hvq] at h
  subst h
  have hnot : ¬ ((RetrievalGuardrails.retrieve_with_threshold cfg
      results (some t)).1.length < cfg.MIN_CHUNKS_REQUIRED) := not_lt.mpr henough
  rcases hvr : OutputValidator.validate_response
      (gen (RAGWithGuardrails.format_context
        (RetrievalGuardrails.retrieve_with_threshold cfg results (some t)).1))
      (RAGWithGuardrails.format_context
        (RetrievalGuardrails.retrieve_with_threshold cfg results (some t)).1) sq
    with ⟨ok, resp, meta⟩
  cases ok <;>
    simp [RAGWithGuardrails.query_with_guardrails, hvq, hnot, hvr]

-- ============================================================================
-- C3: no-context short circuit, generator never invoked
-- ============================================================================

/-- C3: for a valid query whose accepted-chunk count is below
`MIN_CHUNKS_REQUIRED`, the pipeline terminates with status
`no_relevant_context` and the fixed no-context message, and the generator is
never invoked. -/
theorem C3_no_context_short_circuit (cfg : GuardrailConfig) (t : ℚ)
    (query : String) (results : List (Document × ℚ)) (gen : String → String)
    (hq : (InputValidator.validate_query query).1 = true)
    (hfew : (RetrievalGuardrails.retrieve_with_threshold cfg results (some t)).1.length <
      cfg.MIN_CHUNKS_REQUIRED) :
    (RAGWithGuardrails.query_with_guardrails cfg t query results gen).status =
      "no_relevant_context" ∧
    (RAGWithGuardrails.query_with_guardrails cfg t query results gen).response =
      cfg.NO_CONTEXT_MESSAGE ∧
    (RAGWithGuardrails.query_with_guardrails cfg t query results
      gen).generator_called = false := by
  rw [qwg_of_no_context cfg t query results gen hq hfew]
  exact ⟨rfl, rfl, rfl⟩

section
attribute [local semireducible] Rat.mul Rat.inv Rat.add Rat.sub

/-- C3 witness: a valid query whose single retrieved chunk has distance `2/5`,
above the threshold `35/100`, so no chunk survives and the generator (here one
that would answer "resposta") is never called. -/
theorem C3_no_context_short_circuit_witness :
    (RAGWithGuardrails.query_with_guardrails defaultConfig (35/100)
      "Qual é a latência média?" [(goodDoc, 2/5)]
      (fun _ => "resposta")).status = "no_relevant_context" ∧
    (RAGWithGuardrails.query_with_guardrails defaultConfig (35/100)
      "Qual é a latência média?" [(goodDoc, 2/5)]
      (fun _ => "resposta")).generator_called = false := by
  refine ⟨(C3_no_context_short_circuit defaultConfig (35/100)
      "Qual é a latência média?" [(goodDoc, 2/5)] (fun _ => "resposta")
      (by decide) ?_).1,
    (C3_no_context_short_circuit defaultConfig (35/100)
      "Qual é a latência média?" [(goodDoc, 2/5)] (fun _ => "resposta")
      (by decide) ?_).2.2⟩ <;> decide

end

-- ============================================================================
-- C8: empty and too-short queries
-- ============================================================================

/-- C8: a query whose trimmed text is empty fails input validation with the
"Query vazia" reason and the pipeline terminates with `rejected_input`; a
query whose trimmed length is 1 or 2 fails with the too-short reason and the
pipeline also terminates with `rejected_input`. -/
theorem C8_empty_and_short_rejected (cfg : GuardrailConfig) (t : ℚ)
    (query : String) (results : List (Document × ℚ)) (gen : String → String) :
    ((pyStrip query).length = 0 →
      InputValidator.validate_query query = (false, "", "Query vazia") ∧
      (RAGWithGuardrails.query_with_guardrails cfg t query results
        gen).status = "rejected_input") ∧
    (1 ≤ (pyStrip query).length → (pyStrip query).length ≤ 2 →
      InputValidator.validate_query query =
        (false, pyStrip query, "Query muito curta (mínimo 3 caracteres)") ∧
      (RAGWithGuardrails.query_with_guardrails cfg t query results
        gen).status = "rejected_input") := by
  constructor
  · intro h0
    have hstrip : pyStrip query = "" := by
      cases hs : pyStrip query with
      | mk l =>
          rw [hs] at h0
          simp only [String.length] at h0
          simp [List.length_eq_zero.mp h0]
    have hvq : InputValidator.validate_query query =
        (false, "", "Query vazia") := by
      simp [InputValidator.validate_query, hstrip]
    refine ⟨hvq, ?_⟩
    rw [qwg_of_invalid_input cfg t query results gen (by rw [hvq])]
  · intro h1 h2
    have hstrip : pyStrip query ≠ "" := by
      intro hs
      rw [hs] at h1
      simp at h1
    have hq : query ≠ "" := by
      intro hq
      exact hstrip (by rw [hq]; rfl)
    have hlt : (pyStrip query).length < 3 := by omega
    have hvq : InputValidator.validate_query query =
        (false, pyStrip query, "Query muito curta (mínimo 3 caracteres)") := by
      simp [InputValidator.validate_query, hq, hstrip, hlt]
    refine ⟨hvq, ?_⟩
    rw [qwg_of_invalid_input cfg t query results gen (by rw [hvq])]

/-- C8 witness: the empty query and the two-character query `"ab"` are both
rejected with the corresponding reasons. -/
theorem C8_empty_and_short_rejected_witness :
    (InputValidator.validate_query "" = (false, "", "Query vazia") ∧
      (RAGWithGuardrails.query_with_guardrails defaultConfig (35/100) "" []
        (fun _ => "")).status = "rejected_input") ∧
    (InputValidator.validate_query "ab" =
        (false, pyStrip "ab", "Query muito curta (mínimo 3 caracteres)") ∧
      (RAGWithGuardrails.query_with_guardrails defaultConfig (35/100) "ab" []
        (fun _ => "")).status = "rejected_input") :=
  ⟨(C8_empty_and_short_rejected defaultConfig (35/100) "" [] (fun _ => "")).1
     (by decide),
   (C8_empty_and_short_rejected defaultConfig (35/100) "ab" [] (fun _ => "")).2
     (by decide) (by decide)⟩

-- ============================================================================
-- C2: over-long queries (corrected)
-- ============================================================================

/-- A concrete query of 501 identical characters, longer than the 500-character
limit. -/
def longQuery : String := String.mk (List.replicate 501 'a')

set_option maxRecDepth 8192 in
/-- C2 counterexample: the claim says a query longer than 500 characters is
truncated and validation returns success, but on the 501-character query the
code returns `is_valid = false` and the pipeline terminates with status
`rejected_input` instead of proceeding. -/
theorem C2_counterexample_long_query_fails :
    (InputValidator.validate_query longQuery).1 = false ∧
    (RAGWithGuardrails.query_with_guardrails defaultConfig (35/100) longQuery
      [] (fun _ => "")).status = "rejected_input" := by
  constructor
  · decide
  · rw [qwg_of_invalid_input defaultConfig (35/100) longQuery [] (fun _ => "")
      (by decide)]

/-- C2 (amended): a query whose trimmed length exceeds 500 characters fails
input validation (`is_valid = false`) with the truncation message, the
sanitized value being the 500-character prefix, and the pipeline terminates
with status `rejected_input`. -/
theorem C2_long_query_rejected_truncated (cfg : GuardrailConfig) (t : ℚ)
    (query : String) (results : List (Document × ℚ)) (gen : String → String)
    (h : 500 < (pyStrip query).length) :
    InputValidator.validate_query query =
      (false, pyTake 500 (pyStrip query),
        "Query truncada (máximo 500 caracteres)") ∧
    (RAGWithGuardrails.query_with_guardrails cfg t query results gen).status =
      "rejected_input" := by
  have hstrip : pyStrip query ≠ "" := by
    intro hs
    rw [hs] at h
    simp at h
  have hq : query ≠ "" := by
    intro hq
    exact hstrip (by rw [hq]; rfl)
  have hnlt : ¬ (pyStrip query).length < 3 := by omega
  have hvq : InputValidator.validate_query query =
      (false, pyTake 500 (pyStrip query),
        "Query truncada (máximo 500 caracteres)") := by
    simp [InputValidator.validate_query, hq, hstrip, hnlt, h]
  refine ⟨hvq, ?_⟩
  rw [qwg_of_invalid_input cfg t query results gen (by rw [hvq])]

set_option maxRecDepth 8192 in
/-- C2 (amended) witness: the 501-character query is rejected with the
truncated 500-character sanitized prefix. -/
theorem C2_long_query_rejected_truncated_witness :
    500 < (pyStrip longQuery).length ∧
    InputValidator.validate_query longQuery =
      (false, pyTake 500 (pyStrip longQuery),
        "Query truncada (máximo 500 caracteres)") :=
  ⟨by decide,
   (C2_long_query_rejected_truncated defaultConfig (35/100) longQuery []
     (fun _ => "") (by decide)).1⟩

-- ============================================================================
-- C9: threshold-mode fallback and custom override
-- ============================================================================

/-- C9: for a `threshold_mode` outside the three presets, constructing the
pipeline with no custom threshold silently falls back to the balanced preset;
any supplied custom threshold overrides the mode entirely. -/
theorem C9_threshold_fallback_and_override (cfg : GuardrailConfig)
    (mode : String) :
    (mode ≠ "strict" → mode ≠ "balanced" → mode ≠ "permissive" →
      RAGWithGuardrails.initThreshold cfg mode none =
        cfg.SIMILARITY_THRESHOLD_BALANCED) ∧
    (∀ custom : ℚ,
      RAGWithGuardrails.initThreshold cfg mode (some custom) = custom) := by
  constructor
  · intro h1 h2 h3
    simp [RAGWithGuardrails.initThreshold, h1, h2, h3]
  · intro custom
    rfl

/-- C9 witness: the unknown mode `"bogus"` falls back to the balanced
threshold `35/100`, and a custom threshold `9/10` overrides it. -/
theorem C9_threshold_fallback_and_override_witness :
    RAGWithGuardrails.initThreshold defaultConfig "bogus" none = 35/100 ∧
    RAGWithGuardrails.initThreshold defaultConfig "bogus" (some (9/10)) =
      9/10 :=
  ⟨(C9_threshold_fallback_and_override defaultConfig "bogus").1
     (by decide) (by decide) (by decide),
   (C9_threshold_fallback_and_override defaultConfig "bogus").2 (9/10)⟩

-- ============================================================================
-- Output-validator helper lemmas
-- ============================================================================

/-- The spec-side formulation of the word sets used by the fidelity score: the
finite set of distinct lowercase whitespace-separated words of a string. -/
def wordFinset (s : String) : Finset String := (pySplit (pyLower s)).toFinset

theorem wordSet_nodup (s : String) : (wordSet s).Nodup :=
  List.nodup_dedup _

theorem wordSet_toFinset (s : String) :
    (wordSet s).toFinset = wordFinset s := by
  ext w
  simp [wordSet, wordFinset, List.mem_dedup]

theorem wordSet_length (s : String) :
    (wordSet s).length = (wordFinset s).card := by
  rw [← wordSet_toFinset, List.toFinset_card_of_nodup (wordSet_nodup s)]

theorem overlap_card (r c : String) :
    ((wordSet r).filter (fun w => (wordSet c).contains w)).length =
      (wordFinset r ∩ wordFinset c).card := by
  have hnd : ((wordSet r).filter
      (fun w => (wordSet c).contains w)).Nodup :=
    (wordSet_nodup r).filter _
  rw [← List.toFinset_card_of_nodup hnd]
  congr 1
  ext w
  simp [List.mem_filter, wordSet, wordFinset, List.mem_dedup, List.elem_iff]

/-- In `validate_response`, a computed fidelity score comes from the branch
where the answer has at least one distinct word, and equals the overlap count
divided by the distinct-word count. -/
theorem fidelity_score_val (r c q : String) (f : ℚ)
    (h : (OutputValidator.validate_response r c q).2.2.fidelity_score =
      some f) :
    0 < (wordSet r).length ∧
    f = (((wordSet r).filter
        (fun w => (wordSet c).contains w)).length : ℚ) /
      ((wordSet r).length : ℚ) := by
  simp only [OutputValidator.validate_response] at h
  split_ifs at h with h1 h2 h3
  simp only [Option.some.injEq] at h
  exact ⟨h3, h.symm⟩

-- ============================================================================
-- C4: the fidelity score formula and its range
-- ============================================================================

/-- C4: whenever `validate_response` computes a fidelity score, it equals
`|answer_words ∩ context_words| / |answer_words|` over the distinct lowercase
word sets, lies in `[0, 1]`, equals `1` when every distinct answer word
appears in the context, and equals `0` when no answer word appears in the
context. -/
theorem C4_fidelity_score_properties (r c q : String) (f : ℚ)
    (h : (OutputValidator.validate_response r c q).2.2.fidelity_score =
      some f) :
    f = ((wordFinset r ∩ wordFinset c).card : ℚ) /
      ((wordFinset r).card : ℚ) ∧
    0 ≤ f ∧ f ≤ 1 ∧
    ((∀ w ∈ wordFinset r, w ∈ wordFinset c) → f = 1) ∧
    ((∀ w ∈ wordFinset r, w ∉ wordFinset c) → f = 0) := by
  obtain ⟨hpos, hf⟩ := fidelity_score_val r c q f h
  rw [overlap_card, wordSet_length] at hf
  have hcardpos : 0 < ((wordFinset r).card : ℚ) := by
    rw [← wordSet_length]
    exact_mod_cast hpos
  have hsub : (wordFinset r ∩ wordFinset c).card ≤ (wordFinset r).card :=
    Finset.card_le_card Finset.inter_subset_left
  refine ⟨hf, ?_, ?_, ?_, ?_⟩
  · rw [hf]
    positivity
  · rw [hf, div_le_one hcardpos]
    exact_mod_cast hsub
  · intro hall
    have hinter : wordFinset r ∩ wordFinset c = wordFinset r :=
      Finset.inter_eq_left.mpr fun w hw => hall w hw
    rw [hf, hinter, div_self (ne_of_gt hcardpos)]
  · intro hnone
    have hinter : wordFinset r ∩ wordFinset c = ∅ :=
      Finset.eq_empty_of_forall_not_mem fun w hw => by
        rw [Finset.mem_inter] at hw
        exact hnone w hw.1 hw.2
    rw [hf, hinter]
    simp

section
attribute [local semireducible] Rat.mul Rat.inv Rat.add Rat.sub

/-- C4 witness: for the answer `"alpha beta gamma delta"` against the context
`"alpha beta"`, the computed fidelity score is `1/2`, which matches the
set-overlap formula and lies in `[0, 1]`. -/
theorem C4_fidelity_score_properties_witness :
    (OutputValidator.validate_response "alpha beta gamma delta" "alpha beta"
      "q").2.2.fidelity_score = some (1/2) ∧
    (1:ℚ)/2 = ((wordFinset "alpha beta gamma delta" ∩
        wordFinset "alpha beta").card : ℚ) /
      ((wordFinset "alpha beta gamma delta").card : ℚ) ∧
    0 ≤ (1:ℚ)/2 ∧ (1:ℚ)/2 ≤ 1 :=
  have h : (OutputValidator.validate_response "alpha beta gamma delta"
      "alpha beta" "q").2.2.fidelity_score = some (1/2) := by decide
  ⟨h, (C4_fidelity_score_properties "alpha beta gamma delta" "alpha beta" "q"
      (1/2) h).1,
    (C4_fidelity_score_properties "alpha beta gamma delta" "alpha beta" "q"
      (1/2) h).2.1,
    (C4_fidelity_score_properties "alpha beta gamma delta" "alpha beta" "q"
      (1/2) h).2.2.1⟩

end

-- ============================================================================
-- C6: the "not found" sentinel answer short-circuits as valid
-- ============================================================================

/-- Evaluating `validate_response` on the sentinel answer: it passes the
length check and hits the sentinel short-circuit branch. -/
theorem validate_response_sentinel (context query : String) :
    OutputValidator.validate_response defaultConfig.NO_CONTEXT_MESSAGE context
      query =
      (true, defaultConfig.NO_CONTEXT_MESSAGE,
        { original_length := defaultConfig.NO_CONTEXT_MESSAGE.length
          context_length := context.length
          query := query
          validation_result := some "no_context_found" }) := by
  simp only [OutputValidator.validate_response]
  rw [if_neg (by decide), if_pos (by decide)]

/-- C6: when the generated answer equals the fixed "not found" sentinel
string, output validation short-circuits with `ok = true` and the
`no_context_found` marker, and the pipeline terminates with status `success`
rather than `invalid_output`. -/
theorem C6_sentinel_answer_success (context query q2 : String)
    (cfg : GuardrailConfig) (t : ℚ) (results : List (Document × ℚ))
    (hq : (InputValidator.validate_query q2).1 = true)
    (henough : cfg.MIN_CHUNKS_REQUIRED ≤
      (RetrievalGuardrails.retrieve_with_threshold cfg results (some t)).1.length) :
    (OutputValidator.validate_response defaultConfig.NO_CONTEXT_MESSAGE
      context query).1 = true ∧
    (OutputValidator.validate_response defaultConfig.NO_CONTEXT_MESSAGE
      context query).2.1 = defaultConfig.NO_CONTEXT_MESSAGE ∧
    (OutputValidator.validate_response defaultConfig.NO_CONTEXT_MESSAGE
      context query).2.2.validation_result = some "no_context_found" ∧
    (RAGWithGuardrails.query_with_guardrails cfg t q2 results
      (fun _ => defaultConfig.NO_CONTEXT_MESSAGE)).status = "success" := by
  refine ⟨by rw [validate_response_sentinel], by rw [validate_response_sentinel],
    by rw [validate_response_sentinel], ?_⟩
  rw [qwg_of_generated cfg t q2 results _ hq henough]
  simp [validate_response_sentinel]

section
attribute [local semireducible] Rat.mul Rat.inv Rat.add Rat.sub

/-- C6 witness: a valid query with one accepted chunk whose generator answers
the sentinel; the validator marks `no_context_found` and the pipeline ends
with `success`. -/
theorem C6_sentinel_answer_success_witness :
    (OutputValidator.validate_response defaultConfig.NO_CONTEXT_MESSAGE
      "algum contexto" "q").1 = true ∧
    (OutputValidator.validate_response defaultConfig.NO_CONTEXT_MESSAGE
      "algum contexto" "q").2.2.validation_result = some "no_context_found" ∧
    (RAGWithGuardrails.query_with_guardrails defaultConfig (35/100)
      "Qual é a latência média?" [(goodDoc, 1/4)]
      (fun _ => defaultConfig.NO_CONTEXT_MESSAGE)).status = "success" :=
  ⟨(C6_sentinel_answer_success "algum contexto" "q" "Qual é a latência média?"
      defaultConfig (35/100) [(goodDoc, 1/4)] (by decide) (by decide)).1,
   (C6_sentinel_answer_success "algum contexto" "q" "Qual é a latência média?"
      defaultConfig (35/100) [(goodDoc, 1/4)] (by decide) (by decide)).2.2.1,
   (C6_sentinel_answer_success "algum contexto" "q" "Qual é a latência média?"
      defaultConfig (35/100) [(goodDoc, 1/4)] (by decide) (by decide)).2.2.2⟩

end

-- ============================================================================
-- C7: hard failure only on short answers; fidelity and citation are warnings
-- ============================================================================

/-- C7: `validate_response` returns `ok = false` exactly when the trimmed
answer is shorter than 10 characters; an accepted answer is returned
unchanged; a computed fidelity score below `30/100` only sets the
`fidelity_warning` metadata flag, and a missing source citation
(`source_citation = some false`) still yields acceptance. -/
theorem C7_output_acceptance_criteria (response context query : String) :
    ((OutputValidator.validate_response response context query).1 = false ↔
      (pyStrip response).length < 10) ∧
    ((OutputValidator.validate_response response context query).1 = true →
      (OutputValidator.validate_response response context query).2.1 =
        response) ∧
    (∀ f : ℚ,
      (OutputValidator.validate_response response context
        query).2.2.fidelity_score = some f →
      ((OutputValidator.validate_response response context
        query).2.2.fidelity_warning = true ↔ f < 30/100)) ∧
    ((OutputValidator.validate_response response context
      query).2.2.source_citation = some false →
      (OutputValidator.validate_response response context query).1 =
        true) := by
  have hempty : response = "" → (pyStrip response).length = 0 := fun h => by
    rw [h]
    rfl
  simp only [OutputValidator.validate_response]
  split_ifs with h1 h2 h3
  · have hlt : (pyStrip response).length < 10 := by
      rcases (by simpa using h1 : response = "" ∨
          (pyStrip response).length < 10) with h | h
      · rw [hempty h]
        omega
      · exact h
    simp [hlt]
  · have hn : ¬ response = "" ∧ ¬ (pyStrip response).length < 10 := by
      simpa using h1
    simp [hn.2]
  · have hn : ¬ response = "" ∧ ¬ (pyStrip response).length < 10 := by
      simpa using h1
    simp [hn.2]
  · have hn : ¬ response = "" ∧ ¬ (pyStrip response).length < 10 := by
      simpa using h1
    simp [hn.2]

section
attribute [local semireducible] Rat.mul Rat.inv Rat.add Rat.sub

/-- C7 witness: an answer sharing no word with the context and citing no
source is still accepted unchanged; its fidelity score `0` is below `30/100`
and only raises the warning flag, and `source_citation` is recorded as
`some false`. -/
theorem C7_output_acceptance_criteria_witness :
    (OutputValidator.validate_response "zzzzz yyyyy xxxxx" "alpha beta"
      "q").1 = true ∧
    (OutputValidator.validate_response "zzzzz yyyyy xxxxx" "alpha beta"
      "q").2.1 = "zzzzz yyyyy xxxxx" ∧
    ((OutputValidator.validate_response "zzzzz yyyyy xxxxx" "alpha beta"
      "q").2.2.fidelity_warning = true ↔ (0:ℚ) < 30/100) ∧
    (OutputValidator.validate_response "zzzzz yyyyy xxxxx" "alpha beta"
      "q").2.2.source_citation = some false :=
  have hok : (OutputValidator.validate_response "zzzzz yyyyy xxxxx"
      "alpha beta" "q").1 = true := by decide
  ⟨hok,
   (C7_output_acceptance_criteria "zzzzz yyyyy xxxxx" "alpha beta" "q").2.1 hok,
   (C7_output_acceptance_criteria "zzzzz yyyyy xxxxx" "alpha beta" "q").2.2.1 0
     (by decide),
   by decide⟩

end
